import Mathlib

/-
Verification of the quotation web application (src/app.py) against its
natural-language specification.  The Python handlers are shallowly embedded:
floating-point amounts are modelled as rationals, Python `round` as
round-half-to-even, the history JSON file as an inductive state, and each
route handler as a pure function from its inputs and the file state to a
response and a new state.
-/

set_option autoImplicit false

namespace Quotation

/-- Python built-in `round` to an integer: round half to even. -/
def pyRound (x : ℚ) : ℤ :=
  let n : ℤ := ⌊x⌋
  let r : ℚ := x - (n : ℚ)
  if r < 1/2 then n
  else if 1/2 < r then n + 1
  else if n % 2 = 0 then n else n + 1

/-- The per-line amounts `q * p for q, p in zip(quantity, unit_price)`
(src/app.py line 393). -/
def lineAmounts (quantity unit_price : List ℚ) : List ℚ :=
  (quantity.zip unit_price).map (fun qp => qp.1 * qp.2)

/-- Result of the calculation block of `generate_pdf` (src/app.py lines 393-400). -/
structure CalcResult where
  total_amount : ℚ
  sub_total : ℚ
  gst_amount : ℚ
  grand_total : ℚ
  round_off : ℚ
  final_total : ℤ
deriving DecidableEq, Repr

/-- The calculation block of `generate_pdf` (src/app.py lines 393-400):
`total_amount = sum(q * p for q, p in zip(quantity, unit_price))`,
`sub_total = total_amount + loading_charge + transportation_charge`,
`gst_amount = sub_total * 0.18`, `grand_total = sub_total + gst_amount`,
`round_off = round(grand_total) - grand_total`, `final_total = round(grand_total)`. -/
def quotationCalc (quantity unit_price : List ℚ)
    (loading_charge transportation_charge : ℚ) : CalcResult :=
  let total_amount := (lineAmounts quantity unit_price).sum
  let sub_total := total_amount + loading_charge + transportation_charge
  let gst_amount := sub_total * (18/100)
  let grand_total := sub_total + gst_amount
  { total_amount := total_amount
    sub_total := sub_total
    gst_amount := gst_amount
    grand_total := grand_total
    round_off := (pyRound grand_total : ℚ) - grand_total
    final_total := pyRound grand_total }

theorem sum_lineAmounts (qs ps : List ℚ) :
    (lineAmounts qs ps).sum
      = ∑ i ∈ Finset.range (min qs.length ps.length), qs.getD i 0 * ps.getD i 0 := by
  induction qs generalizing ps with
  | nil => simp [lineAmounts]
  | cons a qs ih =>
    cases ps with
    | nil => simp [lineAmounts]
    | cons b ps =>
      have h : min (a :: qs).length ((b :: ps).length) = min qs.length ps.length + 1 := by
        simp [Nat.succ_min_succ]
      rw [h, Finset.sum_range_succ']
      simp only [List.getD_cons_succ, List.getD_cons_zero]
      rw [← ih ps]
      simp [lineAmounts, add_comm]

/-- C1: for equal-length quantity and unit-price sequences and any loading and
transportation charges, the `final_total` computed by `generate_pdf` equals
`round(sum(qty*price) + loading + transport + 0.18*(sum(qty*price)+loading+transport))`,
via the pipeline `line_amount = quantity*unit_price`, `total_amount = sum`,
`sub_total = total_amount + loading + transport`, `gst_amount = sub_total*0.18`,
`grand_total = sub_total + gst_amount`, `final_total = round(grand_total)`. -/
theorem C1_final_total_formula (qs ps : List ℚ) (loading transport : ℚ)
    (hlen : qs.length = ps.length) :
    (quotationCalc qs ps loading transport).final_total
      = pyRound ((∑ i ∈ Finset.range qs.length, qs.getD i 0 * ps.getD i 0)
          + loading + transport
          + (18/100) * ((∑ i ∈ Finset.range qs.length, qs.getD i 0 * ps.getD i 0)
              + loading + transport)) := by
  have hs : (lineAmounts qs ps).sum
      = ∑ i ∈ Finset.range qs.length, qs.getD i 0 * ps.getD i 0 := by
    rw [sum_lineAmounts, hlen, Nat.min_self]
  show pyRound ((lineAmounts qs ps).sum + loading + transport
      + ((lineAmounts qs ps).sum + loading + transport) * (18/100)) = _
  rw [hs]
  congr 1
  ring

/-- Witness for C1 at the fixture qty=[2], price=[50], loading=0, transport=0. -/
theorem C1_witness :
    (quotationCalc [(2 : ℚ)] [(50 : ℚ)] 0 0).final_total
      = pyRound ((∑ i ∈ Finset.range 1,
            ([(2 : ℚ)]).getD i 0 * ([(50 : ℚ)]).getD i 0) + 0 + 0
          + (18/100) * ((∑ i ∈ Finset.range 1,
            ([(2 : ℚ)]).getD i 0 * ([(50 : ℚ)]).getD i 0) + 0 + 0))
    ∧ (quotationCalc [(2 : ℚ)] [(50 : ℚ)] 0 0).final_total = 118 :=
  ⟨C1_final_total_formula [(2 : ℚ)] [(50 : ℚ)] 0 0 rfl,
    by norm_num [quotationCalc, lineAmounts, pyRound]⟩

/-- C4: `final_total` is `grand_total` rounded to the nearest whole unit and
`round_off = final_total - grand_total` with its sign preserved (positive when
rounding up, negative when rounding down); for the fixture qty=[2], price=[50],
loading=0, transport=0: sub_total=100, gst=18, grand_total=118, final_total=118,
round_off=0. -/
theorem C4_round_off_signed :
    (∀ (qs ps : List ℚ) (l t : ℚ),
      (quotationCalc qs ps l t).final_total = pyRound (quotationCalc qs ps l t).grand_total
      ∧ (quotationCalc qs ps l t).round_off
          = ((quotationCalc qs ps l t).final_total : ℚ) - (quotationCalc qs ps l t).grand_total
      ∧ ((quotationCalc qs ps l t).grand_total < ((quotationCalc qs ps l t).final_total : ℚ) →
          0 < (quotationCalc qs ps l t).round_off)
      ∧ (((quotationCalc qs ps l t).final_total : ℚ) < (quotationCalc qs ps l t).grand_total →
          (quotationCalc qs ps l t).round_off < 0))
    ∧ (quotationCalc [(2 : ℚ)] [(50 : ℚ)] 0 0).sub_total = 100
    ∧ (quotationCalc [(2 : ℚ)] [(50 : ℚ)] 0 0).gst_amount = 18
    ∧ (quotationCalc [(2 : ℚ)] [(50 : ℚ)] 0 0).grand_total = 118
    ∧ (quotationCalc [(2 : ℚ)] [(50 : ℚ)] 0 0).final_total = 118
    ∧ (quotationCalc [(2 : ℚ)] [(50 : ℚ)] 0 0).round_off = 0 := by
  refine ⟨fun qs ps l t => ⟨rfl, rfl, fun h => ?_, fun h => ?_⟩,
    by norm_num [quotationCalc, lineAmounts],
    by norm_num [quotationCalc, lineAmounts],
    by norm_num [quotationCalc, lineAmounts],
    by norm_num [quotationCalc, lineAmounts, pyRound],
    by norm_num [quotationCalc, lineAmounts, pyRound]⟩
  · have h0 : (0 : ℚ) < ((quotationCalc qs ps l t).final_total : ℚ)
        - (quotationCalc qs ps l t).grand_total := by linarith
    exact h0
  · have h0 : ((quotationCalc qs ps l t).final_total : ℚ)
        - (quotationCalc qs ps l t).grand_total < 0 := by linarith
    exact h0

/-- Witness for C4 at the fixture qty=[2], price=[50], loading=0, transport=0. -/
theorem C4_witness :
    (quotationCalc [(2 : ℚ)] [(50 : ℚ)] 0 0).round_off
      = ((quotationCalc [(2 : ℚ)] [(50 : ℚ)] 0 0).final_total : ℚ)
        - (quotationCalc [(2 : ℚ)] [(50 : ℚ)] 0 0).grand_total :=
  (C4_round_off_signed.1 [(2 : ℚ)] [(50 : ℚ)] 0 0).2.1

/-- Python `str.lower` on an ASCII character. -/
def pyLowerChar (c : Char) : Char :=
  if 'A' ≤ c ∧ c ≤ 'Z' then Char.ofNat (c.toNat + 32) else c

/-- Python `str.lower` (ASCII fragment). -/
def pyLower (s : String) : String := ⟨s.data.map pyLowerChar⟩

/-- Python `str.upper` on an ASCII character. -/
def pyUpperChar (c : Char) : Char :=
  if 'a' ≤ c ∧ c ≤ 'z' then Char.ofNat (c.toNat - 32) else c

/-- Python `str.upper` (ASCII fragment). -/
def pyUpper (s : String) : String := ⟨s.data.map pyUpperChar⟩

/-- Python `str.strip` with no argument: drop leading and trailing whitespace. -/
def pyStrip (s : String) : String :=
  ⟨((s.data.dropWhile Char.isWhitespace).reverse.dropWhile Char.isWhitespace).reverse⟩

/-- A row of the `products` table (src/app.py lines 39-47). -/
structure DbProduct where
  user_id : Int
  name : String
  description : Option String
  price : ℚ
  unit_type : Option String
deriving DecidableEq, Repr, Inhabited

/-- An entry of the catalog dict built inside `generate_pdf`
(src/app.py lines 491-498): `name`, `unit_type` as
`(p.unit_type or "").strip().upper()`, `description` as `p.description or ""`. -/
structure CatalogEntry where
  name : String
  unit_type : String
  description : String
deriving DecidableEq, Repr, Inhabited

/-- The catalog dict built from one DB product row (src/app.py lines 492-496). -/
def dbCatalogEntry (p : DbProduct) : CatalogEntry :=
  { name := p.name
    unit_type := pyUpper (pyStrip (p.unit_type.getD ""))
    description := p.description.getD "" }

/-- The catalog loaded for the logged-in user (src/app.py lines 487-498):
`db.query(Product).filter(Product.user_id == user_id).all()` mapped to dicts. -/
def userCatalog (db : List DbProduct) (uid : Int) : List CatalogEntry :=
  (db.filter (fun p => p.user_id == uid)).map dbCatalogEntry

/-- Unit-type resolution of `generate_pdf` (src/app.py lines 507-511):
`unit = ""`, then the first catalog entry with
`prod["name"].lower() == p.lower()` sets `unit = prod.get("unit_type", "").upper()`. -/
def resolveUnit (catalog : List CatalogEntry) (p : String) : String :=
  match catalog.find? (fun prod => pyLower prod.name == pyLower p) with
  | some prod => pyUpper prod.unit_type
  | none => ""

/-- One line item as zipped in the product loop (src/app.py line 506):
product name, description, quantity, unit price. -/
abbrev QRow := String × String × ℚ × ℚ

/-- Python `zip` of four sequences: truncation to the shortest. -/
def zip4 {α β γ δ : Type} : List α → List β → List γ → List δ → List (α × β × γ × δ)
  | a :: as, b :: bs, c :: cs, d :: ds => (a, b, c, d) :: zip4 as bs cs ds
  | _, _, _, _ => []

/-- The quantity component of a zipped line item. -/
def rowQty (r : QRow) : ℚ := r.2.2.1

/-- One iteration of the quantity-categorization in the product loop
(src/app.py lines 513-519): `if unit == "KG": total_weight += q`,
`elif unit in ["NOS", "NO", "NOS."]: total_nos += q`,
`elif unit in ["PCS", "PIECE", "PIECES"]: total_pieces += q`. -/
def aggStep (catalog : List CatalogEntry) (acc : ℚ × ℚ × ℚ) (r : QRow) : ℚ × ℚ × ℚ :=
  let unit := resolveUnit catalog r.1
  if unit = "KG" then (acc.1 + r.2.2.1, acc.2.1, acc.2.2)
  else if unit = "NOS" ∨ unit = "NO" ∨ unit = "NOS." then
    (acc.1, acc.2.1 + r.2.2.1, acc.2.2)
  else if unit = "PCS" ∨ unit = "PIECE" ∨ unit = "PIECES" then
    (acc.1, acc.2.1, acc.2.2 + r.2.2.1)
  else acc

/-- The totals `(total_weight, total_nos, total_pieces)` accumulated by the
product loop of `generate_pdf` (src/app.py lines 502-519), starting from zero. -/
def aggregateTotals (catalog : List CatalogEntry) (rows : List QRow) : ℚ × ℚ × ℚ :=
  rows.foldl (aggStep catalog) (0, 0, 0)

/-- Sum of quantities of rows whose resolved unit type is `"KG"`. -/
def weightOf (catalog : List CatalogEntry) (rows : List QRow) : ℚ :=
  ((rows.filter (fun r => decide (resolveUnit catalog r.1 = "KG"))).map rowQty).sum

/-- Sum of quantities of rows whose resolved unit type is one of
`"NOS"`, `"NO"`, `"NOS."`. -/
def nosOf (catalog : List CatalogEntry) (rows : List QRow) : ℚ :=
  ((rows.filter
      (fun r => decide (resolveUnit catalog r.1 = "NOS" ∨ resolveUnit catalog r.1 = "NO"
        ∨ resolveUnit catalog r.1 = "NOS."))).map rowQty).sum

/-- Sum of quantities of rows whose resolved unit type is one of
`"PCS"`, `"PIECE"`, `"PIECES"`. -/
def piecesOf (catalog : List CatalogEntry) (rows : List QRow) : ℚ :=
  ((rows.filter
      (fun r => decide (resolveUnit catalog r.1 = "PCS" ∨ resolveUnit catalog r.1 = "PIECE"
        ∨ resolveUnit catalog r.1 = "PIECES"))).map rowQty).sum

theorem foldl_aggStep (catalog : List CatalogEntry) (rows : List QRow) (acc : ℚ × ℚ × ℚ) :
    rows.foldl (aggStep catalog) acc
      = (acc.1 + weightOf catalog rows, acc.2.1 + nosOf catalog rows,
         acc.2.2 + piecesOf catalog rows) := by
  induction rows generalizing acc with
  | nil => simp [weightOf, nosOf, piecesOf]
  | cons r rs ih =>
    rw [List.foldl_cons, ih]
    by_cases h1 : resolveUnit catalog r.1 = "KG"
    · have h2 : ¬(resolveUnit catalog r.1 = "NOS" ∨ resolveUnit catalog r.1 = "NO"
          ∨ resolveUnit catalog r.1 = "NOS.") := by rw [h1]; decide
      have h3 : ¬(resolveUnit catalog r.1 = "PCS" ∨ resolveUnit catalog r.1 = "PIECE"
          ∨ resolveUnit catalog r.1 = "PIECES") := by rw [h1]; decide
      simp [aggStep, weightOf, nosOf, piecesOf, h1, h2, h3, List.filter_cons, rowQty, add_assoc,
        add_comm, add_left_comm]
    · by_cases h2 : resolveUnit catalog r.1 = "NOS" ∨ resolveUnit catalog r.1 = "NO"
          ∨ resolveUnit catalog r.1 = "NOS."
      · have h3 : ¬(resolveUnit catalog r.1 = "PCS" ∨ resolveUnit catalog r.1 = "PIECE"
            ∨ resolveUnit catalog r.1 = "PIECES") := by
          rcases h2 with h | h | h <;> rw [h] <;> decide
        simp [aggStep, weightOf, nosOf, piecesOf, h1, h2, h3, List.filter_cons, rowQty,
          add_assoc, add_comm, add_left_comm]
      · by_cases h3 : resolveUnit catalog r.1 = "PCS" ∨ resolveUnit catalog r.1 = "PIECE"
            ∨ resolveUnit catalog r.1 = "PIECES"
        · simp [aggStep, weightOf, nosOf, piecesOf, h1, h2, h3, List.filter_cons, rowQty,
            add_assoc, add_comm, add_left_comm]
        · simp [aggStep, weightOf, nosOf, piecesOf, h1, h2, h3, List.filter_cons, rowQty]

/-- The fixture catalog of C2/C3: user 1 owns "Bolt" (unit KG) and
"Plate" (unit NOS). -/
def fixtureCatalog : List CatalogEntry :=
  userCatalog
    [{ user_id := 1, name := "Bolt", description := none, price := 5, unit_type := some "KG" },
     { user_id := 1, name := "Plate", description := none, price := 7, unit_type := some "NOS" }]
    1

/-- C2: each line item's unit type is resolved by case-insensitive exact match
against the user's catalog (first match wins); quantities accumulate into
`total_weight` for unit "KG", `total_nos` for "NOS"/"NO"/"NOS.", `total_pieces`
for "PCS"/"PIECE"/"PIECES", and unresolved products or other unit types
contribute to no aggregate; with catalog Bolt↦KG, Plate↦NOS and line items
(Bolt,10), (Plate,3), total_weight=10, total_nos=3, total_pieces=0. -/
theorem C2_quantity_aggregation :
    (∀ (catalog : List CatalogEntry) (names descs : List String) (qs us : List ℚ),
      aggregateTotals catalog (zip4 names descs qs us)
        = (weightOf catalog (zip4 names descs qs us),
           nosOf catalog (zip4 names descs qs us),
           piecesOf catalog (zip4 names descs qs us)))
    ∧ resolveUnit [dbCatalogEntry
        { user_id := 1, name := "bolt", description := none, price := 5,
          unit_type := some "KG" }] "Bolt" = "KG"
    ∧ resolveUnit [⟨"Bolt", "KG", ""⟩, ⟨"bolt", "NOS", ""⟩] "BOLT" = "KG"
    ∧ resolveUnit fixtureCatalog "Washer" = ""
    ∧ aggregateTotals fixtureCatalog
        (zip4 ["Bolt", "Plate"] ["", ""] [(10 : ℚ), 3] [(1 : ℚ), 1]) = (10, 3, 0) := by
  refine ⟨fun catalog names descs qs us => ?_, by decide, by decide, by decide, ?_⟩
  · rw [aggregateTotals, foldl_aggStep]
    simp
  · have hb : resolveUnit fixtureCatalog "Bolt" = "KG" := by decide
    have hp : resolveUnit fixtureCatalog "Plate" = "NOS" := by decide
    simp [aggregateTotals, zip4, aggStep, hb, hp]

/-- Insert a comma after every three characters, fuelled by the list length
(the list is already reversed, so this groups decimal digits from the right). -/
def chunk3 : Nat → List Char → List Char
  | 0, l => l
  | _, [] => []
  | fuel + 1, l => if l.length ≤ 3 then l else l.take 3 ++ ',' :: chunk3 fuel (l.drop 3)

/-- Comma thousands grouping of a digit string, as in Python `format(n, ",")`. -/
def groupThousands (s : String) : String :=
  ⟨(chunk3 s.data.length s.data.reverse).reverse⟩

/-- Left-pad a digit string with zeros up to width `k`. -/
def padZeros (s : String) (k : Nat) : String :=
  ⟨List.replicate (k - s.data.length) '0' ++ s.data⟩

/-- Python format spec `,.Nf` on a rational: fixed `d` decimal places with
round-half-to-even, comma thousands grouping of the integer part
(used at src/app.py lines 527, 536-540, 563-574). -/
def fmtGrouped (d : Nat) (x : ℚ) : String :=
  let sgn := if x < 0 then "-" else ""
  let m := (pyRound (|x| * (10 : ℚ) ^ d)).toNat
  let ip := m / 10 ^ d
  let fp := m % 10 ^ d
  if d = 0 then sgn ++ groupThousands (Nat.repr ip)
  else sgn ++ groupThousands (Nat.repr ip) ++ "." ++ padZeros (Nat.repr fp) d

/-- The `summary_parts` list built after the product loop
(src/app.py lines 534-540): a bucket is appended only when its total is
strictly positive, in the order weight, nos, pieces. -/
def summaryParts (total_weight total_nos total_pieces : ℚ) : List String :=
  (if total_weight > 0 then ["Total Weight: " ++ fmtGrouped 3 total_weight ++ " KG"] else [])
    ++ (if total_nos > 0 then ["Total Nos: " ++ fmtGrouped 0 total_nos] else [])
    ++ (if total_pieces > 0 then ["Total Pieces: " ++ fmtGrouped 0 total_pieces] else [])

/-- `summary_text = " | ".join(summary_parts)` (src/app.py line 543). -/
def summaryText (total_weight total_nos total_pieces : ℚ) : String :=
  String.intercalate " | " (summaryParts total_weight total_nos total_pieces)

/-- C3 counterexample: with catalog Bolt↦KG and the single line item
(Bolt, quantity -5), the weight aggregate is -5, which is non-zero, yet the
summary joins no bucket at all — the code includes a bucket only when its
total is strictly positive, not when it is non-zero. -/
theorem C3_counterexample :
    (aggregateTotals fixtureCatalog (zip4 ["Bolt"] [""] [(-5 : ℚ)] [(1 : ℚ)])).1 ≠ 0
    ∧ summaryParts (aggregateTotals fixtureCatalog (zip4 ["Bolt"] [""] [(-5 : ℚ)] [(1 : ℚ)])).1
        (aggregateTotals fixtureCatalog (zip4 ["Bolt"] [""] [(-5 : ℚ)] [(1 : ℚ)])).2.1
        (aggregateTotals fixtureCatalog (zip4 ["Bolt"] [""] [(-5 : ℚ)] [(1 : ℚ)])).2.2 = [] := by
  have hb : resolveUnit fixtureCatalog "Bolt" = "KG" := by decide
  have h : aggregateTotals fixtureCatalog (zip4 ["Bolt"] [""] [(-5 : ℚ)] [(1 : ℚ)])
      = (-5, 0, 0) := by
    simp [aggregateTotals, zip4, aggStep, hb]
  rw [h]
  refine ⟨by norm_num, ?_⟩
  norm_num [summaryParts]

/-- The aggregate totals of the C2/C3 fixture: catalog Bolt↦KG, Plate↦NOS and
line items (Bolt,10), (Plate,3). -/
def fixtureTotals : ℚ × ℚ × ℚ :=
  aggregateTotals fixtureCatalog (zip4 ["Bolt", "Plate"] ["", ""] [(10 : ℚ), 3] [(1 : ℚ), 1])

/-- C3 (amended): the quantity-summary string joins exactly the aggregate
buckets whose total is strictly positive, separated by " | ", in the fixed
order weight, nos, pieces, formatting weight with three decimals plus "KG" and
nos/pieces with zero decimals; for the fixture catalog Bolt↦KG, Plate↦NOS with
line items (Bolt,10), (Plate,3) the summary equals
"Total Weight: 10.000 KG | Total Nos: 3". -/
theorem C3_summary_positive_buckets :
    (∀ w n p : ℚ, summaryText w n p = String.intercalate " | "
        ((if 0 < w then ["Total Weight: " ++ fmtGrouped 3 w ++ " KG"] else [])
          ++ (if 0 < n then ["Total Nos: " ++ fmtGrouped 0 n] else [])
          ++ (if 0 < p then ["Total Pieces: " ++ fmtGrouped 0 p] else [])))
    ∧ summaryText fixtureTotals.1 fixtureTotals.2.1 fixtureTotals.2.2
        = "Total Weight: 10.000 KG | Total Nos: 3" := by
  constructor
  · intro w n p
    rfl
  · have hb : resolveUnit fixtureCatalog "Bolt" = "KG" := by decide
    have hp : resolveUnit fixtureCatalog "Plate" = "NOS" := by decide
    have ht : fixtureTotals = (10, 3, 0) := by
      simp [fixtureTotals, aggregateTotals, zip4, aggStep, hb, hp]
    have hw : fmtGrouped 3 10 = "10.000" := by
      have h10 : pyRound (|(10 : ℚ)| * (10 : ℚ) ^ (3 : ℕ)) = 10000 := by
        norm_num [pyRound]
      have hlt : ¬((10 : ℚ) < 0) := by norm_num
      simp only [fmtGrouped, h10, if_neg hlt]
      decide
    have hn : fmtGrouped 0 3 = "3" := by
      have h3 : pyRound (|(3 : ℚ)| * (10 : ℚ) ^ (0 : ℕ)) = 3 := by
        norm_num [pyRound]
      have hlt : ¬((3 : ℚ) < 0) := by norm_num
      simp only [fmtGrouped, h3, if_neg hlt]
      decide
    rw [ht]
    have c1 : (10 : ℚ) > 0 := by norm_num
    have c2 : (3 : ℚ) > 0 := by norm_num
    have c3 : ¬((0 : ℚ) > 0) := by norm_num
    rw [summaryText, summaryParts, if_pos c1, if_pos c2, if_neg c3, hw, hn]
    decide

/-- Decimal value of a digit string. -/
def digitsToNat (cs : List Char) : Nat :=
  cs.foldl (fun a c => a * 10 + (c.toNat - 48)) 0

/-- Gregorian leap-year test. -/
def isLeapYear (y : Nat) : Bool :=
  y % 4 == 0 && (y % 100 != 0 || y % 400 == 0)

/-- Number of days in a month of the proleptic Gregorian calendar. -/
def daysInMonth (y m : Nat) : Nat :=
  if m = 2 then (if isLeapYear y then 29 else 28)
  else if m = 4 ∨ m = 6 ∨ m = 9 ∨ m = 11 then 30
  else 31

/-- CPython `datetime.strptime(s, "%Y-%m-%d")` (src/app.py line 466): exactly
four digits of year, a dash, one or two digits of month, a dash, one or two
digits of day, nothing after; the fields must form a valid date with year ≥ 1
(month 1-12, day within the month, leap years included). `none` exactly when
`strptime`/`datetime` raises. -/
def parseYMD (s : String) : Option (Nat × Nat × Nat) :=
  let (ys, r1) := s.data.span Char.isDigit
  if ys.length = 4 then
    match r1 with
    | '-' :: r2 =>
      let (ms, r3) := r2.span Char.isDigit
      if 1 ≤ ms.length ∧ ms.length ≤ 2 then
        match r3 with
        | '-' :: r4 =>
          let (ds, r5) := r4.span Char.isDigit
          if 1 ≤ ds.length ∧ ds.length ≤ 2 ∧ r5 = [] then
            let y := digitsToNat ys
            let m := digitsToNat ms
            let d := digitsToNat ds
            if 1 ≤ y ∧ 1 ≤ m ∧ m ≤ 12 ∧ 1 ≤ d ∧ d ≤ daysInMonth y m then
              some (y, m, d)
            else none
          else none
        | _ => none
      else none
    | _ => none
  else none

/-- Two-digit zero-padded decimal, as strftime `%d` and `%m` produce. -/
def pad2 (n : Nat) : String :=
  if n < 10 then "0" ++ Nat.repr n else Nat.repr n

/-- The `valid_till` reformatting of `generate_pdf` (src/app.py lines 465-468):
`datetime.strptime(valid_till, "%Y-%m-%d").strftime("%d-%m-%Y")`, falling back
to the raw string when parsing raises. -/
def formatValidTill (valid_till : String) : String :=
  match parseYMD valid_till with
  | some (y, m, d) => pad2 d ++ "-" ++ pad2 m ++ "-" ++ Nat.repr y
  | none => valid_till

/-- C9: every `valid_till` string that parses in ISO year-month-day form is
reformatted to day-month-year, and every string that fails to parse in that
form is passed through unchanged. -/
theorem C9_valid_till_reformat (s : String) :
    (∀ y m d, parseYMD s = some (y, m, d) →
      formatValidTill s = pad2 d ++ "-" ++ pad2 m ++ "-" ++ Nat.repr y)
    ∧ (parseYMD s = none → formatValidTill s = s) := by
  constructor
  · intro y m d h
    simp [formatValidTill, h]
  · intro h
    simp [formatValidTill, h]

/-- Witness for C9: "2024-01-05" parses and is reformatted to "05-01-2024";
"05-01-2024" (already day-month-year) and the invalid date "2024-02-30" fail
to parse and pass through unchanged. -/
theorem C9_witness :
    formatValidTill "2024-01-05" = "05-01-2024"
    ∧ formatValidTill "05-01-2024" = "05-01-2024"
    ∧ formatValidTill "2024-02-30" = "2024-02-30" := by
  refine ⟨?_, ?_, ?_⟩
  · rw [(C9_valid_till_reformat "2024-01-05").1 2024 1 5 (by decide)]
    decide
  · exact (C9_valid_till_reformat "05-01-2024").2 (by decide)
  · exact (C9_valid_till_reformat "2024-02-30").2 (by decide)

/-- The `data` snapshot stored in a history entry (src/app.py lines 624-648). -/
structure QData where
  company_name : String
  company_address : String
  company_email : String
  company_phone : String
  company_gst : String
  customer_name : String
  customer_address : String
  customer_city : String
  shipping_name : String
  shipping_address : String
  shipping_city : String
  account_name : String
  account_number : String
  ifsc_code : String
  bank_name : String
  valid_till : String
  note : Option String
  loading_charge : ℚ
  transportation_charge : ℚ
  product_name : List String
  description : List String
  quantity : List ℚ
  unit_price : List ℚ
deriving DecidableEq, Repr, Inhabited

/-- One record of the history JSON file (src/app.py lines 617-649), plus the
`last_downloaded` stamp that `/download` may add (line 736). -/
structure HistoryEntry where
  quotation_no : String
  customer_name : String
  date : String
  file : String
  total : ℤ
  user_id : Option Int
  data : QData
  last_downloaded : Option String := none
deriving DecidableEq, Repr, Inhabited

/-- State of `quotation_history.json`: absent, unparseable JSON, or a parsed
list of records. -/
inductive HistoryFile where
  | missing
  | corrupt
  | stored (entries : List HistoryEntry)
deriving DecidableEq, Repr, Inhabited

/-- The responses the modelled handlers can produce. -/
inductive WebResponse where
  | redirectLogin
  | redirectHistory
  | historyPage (entries : List HistoryEntry)
  | preview (pdf_name : String)
  | fileResponse (pdf_name : String)
  | notFound
  | serverError
deriving DecidableEq, Repr, Inhabited

/-- GET /history (src/app.py lines 665-686): redirect to login without a
session; otherwise read the file (missing file → `history = []`, parse failure
→ `all_history = []`) and keep the entries with `h.get("user_id") == user_id`. -/
def view_history (session_user : Option Int) (hf : HistoryFile) : WebResponse :=
  match session_user with
  | none => .redirectLogin
  | some uid =>
    match hf with
    | .missing => .historyPage []
    | .corrupt => .historyPage []
    | .stored l => .historyPage (l.filter (fun h => h.user_id == some uid))

/-- The list of records shown by a history-page response (empty otherwise). -/
def pageEntries : WebResponse → List HistoryEntry
  | .historyPage l => l
  | _ => []

/-- Python list subscript semantics: `l[i]` resolves a non-negative `i < len`
directly, a negative `-len ≤ i < 0` to `len + i`, and raises otherwise. -/
def pyIdx (n : Nat) (i : Int) : Option Nat :=
  if 0 ≤ i then (if i < (n : Int) then some i.toNat else none)
  else (if -(n : Int) ≤ i then some (i + n).toNat else none)

/-- Response of a handler together with the history-file state and the set of
stored PDF files (basenames under static/) after the request. -/
structure HandlerResult where
  response : WebResponse
  history : HistoryFile
  files : List String
deriving DecidableEq, Repr, Inhabited

/-- POST /delete_history/{index} (src/app.py lines 688-717). There is no
session check. A missing file redirects at once. A parse failure leaves
`history = []`. The only range guard is `if index >= len(history)`; otherwise
`entry = history[index]` and `del history[index]` follow Python subscript
semantics (negative indices wrap, below `-len` raises IndexError), the
referenced PDF is removed if present, and the file is rewritten. -/
def delete_history (index : Int) (hf : HistoryFile) (files : List String) : HandlerResult :=
  match hf with
  | .missing => { response := .redirectHistory, history := hf, files := files }
  | .corrupt =>
    if 0 ≤ index then { response := .redirectHistory, history := hf, files := files }
    else { response := .serverError, history := hf, files := files }
  | .stored l =>
    if (l.length : Int) ≤ index then
      { response := .redirectHistory, history := hf, files := files }
    else
      match pyIdx l.length index with
      | none => { response := .serverError, history := hf, files := files }
      | some j =>
        let entry := l.getD j default
        let files2 := if entry.file ∈ files then files.erase entry.file else files
        { response := .redirectHistory, history := .stored (l.eraseIdx j), files := files2 }

/-- Stamp `last_downloaded` on the first record whose `file` matches
(src/app.py lines 734-738). -/
def stampFirst (l : List HistoryEntry) (nm now : String) : List HistoryEntry :=
  match l with
  | [] => []
  | h :: t =>
    if h.file == nm then { h with last_downloaded := some now } :: t
    else h :: stampFirst t nm now

/-- GET /download/{pdf_name} (src/app.py lines 719-743). No session check.
A missing file yields an error payload; otherwise the first matching history
record (if any) is stamped with the download time and the file is streamed. -/
def download_pdf (pdf_name : String) (hf : HistoryFile) (files : List String)
    (now : String) : HandlerResult :=
  if pdf_name ∈ files then
    match hf with
    | .missing => { response := .fileResponse pdf_name, history := hf, files := files }
    | .corrupt => { response := .fileResponse pdf_name, history := hf, files := files }
    | .stored l =>
      if l.any (fun h => h.file == pdf_name) then
        { response := .fileResponse pdf_name, history := .stored (stampFirst l pdf_name now),
          files := files }
      else { response := .fileResponse pdf_name, history := hf, files := files }
  else { response := .notFound, history := hf, files := files }

/-- The form fields of POST /generate_pdf (src/app.py lines 360-386). -/
structure GenInput where
  customer_name : String
  customer_address : String
  customer_city : String
  shipping_name : String
  shipping_address : String
  shipping_city : String
  company_name : String
  company_address : String
  company_email : String
  company_phone : String
  company_gst : String
  bank_name : String
  account_name : String
  account_number : String
  ifsc_code : String
  valid_till : String
  product_name : List String
  description : Option (List String)
  quantity : List ℚ
  unit_price : List ℚ
  loading_charge : Option ℚ
  transportation_charge : Option ℚ
  note : Option String
  quotation_number : String
deriving DecidableEq, Repr, Inhabited

/-- Description defaulting (src/app.py lines 389-390):
`if description is None: description = ["" for _ in product_name]`. -/
def effectiveDescription (description : Option (List String))
    (product_name : List String) : List String :=
  match description with
  | none => product_name.map (fun _ => "")
  | some d => d

/-- `float(x or 0.0)` on an optional charge (src/app.py lines 394-395);
Python `or` sends both `None` and `0.0` to `0.0`, the same value as `getD 0`. -/
def orZero (x : Option ℚ) : ℚ := x.getD 0

/-- Quotation-number fallback (src/app.py lines 405-409): strip, and default
the empty string to "LSY/001". -/
def quotationNo (quotation_number : String) : String :=
  let qn := pyStrip quotation_number
  if qn = "" then "LSY/001" else qn

/-- `customer_name.replace(" ", "_")` (src/app.py line 413): a single-character
pattern, hence a character map. -/
def replaceSpaces (s : String) : String :=
  ⟨s.data.map (fun c => if c = ' ' then '_' else c)⟩

/-- The generated PDF path (src/app.py line 415), with the strftime timestamp
passed in: `static/quotation_{sanitized}_{DD-MM-YYYY_HHMMSS}.pdf`. -/
def pdfFileName (customer_name ts : String) : String :=
  "static/quotation_" ++ replaceSpaces customer_name ++ "_" ++ ts ++ ".pdf"

/-- `os.path.basename` on the forward-slash paths this app builds. -/
def baseName (p : String) : String :=
  ⟨(p.data.reverse.takeWhile (fun c => c != '/')).reverse⟩

/-- The `history_entry` dict built by `generate_pdf` (src/app.py lines
616-649): scalars, the session's user id (None when not logged in), and the
full input snapshot with the coerced description and charges. -/
def genHistoryEntry (inp : GenInput) (session_user : Option Int)
    (quotation_date pdf_basename : String) : HistoryEntry :=
  { quotation_no := quotationNo inp.quotation_number
    customer_name := inp.customer_name
    date := quotation_date
    file := pdf_basename
    total := (quotationCalc inp.quantity inp.unit_price (orZero inp.loading_charge)
        (orZero inp.transportation_charge)).final_total
    user_id := session_user
    last_downloaded := none
    data :=
      { company_name := inp.company_name
        company_address := inp.company_address
        company_email := inp.company_email
        company_phone := inp.company_phone
        company_gst := inp.company_gst
        customer_name := inp.customer_name
        customer_address := inp.customer_address
        customer_city := inp.customer_city
        shipping_name := inp.shipping_name
        shipping_address := inp.shipping_address
        shipping_city := inp.shipping_city
        account_name := inp.account_name
        account_number := inp.account_number
        ifsc_code := inp.ifsc_code
        bank_name := inp.bank_name
        valid_till := inp.valid_till
        note := inp.note
        loading_charge := orZero inp.loading_charge
        transportation_charge := orZero inp.transportation_charge
        product_name := inp.product_name
        description := effectiveDescription inp.description inp.product_name
        quantity := inp.quantity
        unit_price := inp.unit_price } }

/-- The read before the prepend in `generate_pdf` (src/app.py lines 650-656):
missing file or parse failure leave `history = []`. -/
def readForAppend (hf : HistoryFile) : List HistoryEntry :=
  match hf with
  | .missing => []
  | .corrupt => []
  | .stored l => l

set_option linter.unusedVariables false in
/-- POST /generate_pdf (src/app.py lines 359-663). The handler performs no
session check: the session is consulted only for the catalog used in rendering
(modelled by `userCatalog`/`aggregateTotals`/`summaryText`, which affect only
the drawn PDF) and for the entry's `user_id`. It always writes the PDF,
prepends the history entry (`history.insert(0, ...)`, line 657), rewrites the
file and returns the preview page. -/
def generate_pdf_handler (inp : GenInput) (session_user : Option Int)
    (db : List DbProduct) (hf : HistoryFile) (files : List String)
    (quotation_date ts : String) : HandlerResult :=
  let pdf_file := pdfFileName inp.customer_name ts
  let pdf_name := baseName pdf_file
  let entry := genHistoryEntry inp session_user quotation_date pdf_name
  { response := .preview pdf_name
    history := .stored (entry :: readForAppend hf)
    files := pdf_name :: files }

/-- A concrete history record used to instantiate the history theorems. -/
def sampleEntry : HistoryEntry :=
  { quotation_no := "LSY/001"
    customer_name := "ACME Steels"
    date := "06-10-2026"
    file := "quotation_ACME_Steels_06-10-2026_101010.pdf"
    total := 118
    user_id := some 1
    data := default }

/-- C5: whenever the history file is missing or its content is corrupt, the
/history handler returns an empty list (not an error) for every logged-in
user. -/
theorem C5_missing_or_corrupt_is_empty (uid : Int) (hf : HistoryFile)
    (h : hf = .missing ∨ hf = .corrupt) :
    view_history (some uid) hf = .historyPage [] := by
  rcases h with rfl | rfl <;> rfl

/-- Witness for C5 at both degraded file states. -/
theorem C5_witness :
    view_history (some 1) .missing = .historyPage []
    ∧ view_history (some 1) .corrupt = .historyPage [] :=
  ⟨C5_missing_or_corrupt_is_empty 1 .missing (Or.inl rfl),
   C5_missing_or_corrupt_is_empty 1 .corrupt (Or.inr rfl)⟩

/-- C6: every record returned by the /history handler carries the logged-in
user's id, for every file state; and after delete-by-index removes a record
(one not duplicated elsewhere in the log), a subsequent /history never returns
it, for any user. -/
theorem C6_user_isolation :
    (∀ (uid : Int) (hf : HistoryFile) (h : HistoryEntry),
      h ∈ pageEntries (view_history (some uid) hf) → h.user_id = some uid)
    ∧ (∀ (l : List HistoryEntry) (j : Nat) (hj : j < l.length),
      l.count l[j] = 1 → ∀ (uid : Int) (files : List String),
        l[j] ∉ pageEntries (view_history (some uid)
          (delete_history (j : Int) (.stored l) files).history)) := by
  constructor
  · intro uid hf h hm
    cases hf with
    | missing => simp [view_history, pageEntries] at hm
    | corrupt => simp [view_history, pageEntries] at hm
    | stored l =>
      simp [view_history, pageEntries, List.mem_filter] at hm
      exact hm.2
  · intro l j hj hcount uid files hmem
    have hle : ¬((l.length : Int) ≤ (j : Int)) := by exact_mod_cast Nat.not_le.mpr hj
    have hp : pyIdx l.length (j : Int) = some j := by
      unfold pyIdx
      rw [if_pos (Int.natCast_nonneg j), if_pos (by exact_mod_cast hj)]
      simp
    have hdel : (delete_history (j : Int) (.stored l) files).history
        = .stored (l.eraseIdx j) := by
      simp only [delete_history]
      rw [if_neg hle, hp]
    rw [hdel] at hmem
    obtain ⟨a, ha⟩ : ∃ a, a = l[j] := ⟨l[j], rfl⟩
    have hm2 : a ∈ l.eraseIdx j := by
      rw [ha]
      simp [view_history, pageEntries, List.mem_filter] at hmem
      exact hmem.1
    have hsplit : l.take j ++ a :: l.drop (j + 1) = l := by
      rw [ha, ← List.drop_eq_getElem_cons hj, List.take_append_drop]
    have hcount2 : List.count a (l.take j ++ a :: l.drop (j + 1)) = 1 := by
      rw [hsplit, ha]
      exact hcount
    rw [List.count_append, List.count_cons_self] at hcount2
    have hz : List.count a (l.eraseIdx j) = 0 := by
      rw [List.eraseIdx_eq_take_drop_succ, List.count_append]
      omega
    exact (List.count_eq_zero.mp hz) hm2

/-- Witness for C6: a single-record log owned by user 1; the record is
returned with user id 1, and after deleting index 0 it is no longer listed. -/
theorem C6_witness :
    sampleEntry.user_id = some 1
    ∧ sampleEntry ∉ pageEntries (view_history (some 1)
        (delete_history ((0 : Nat) : Int) (.stored [sampleEntry]) []).history) :=
  ⟨C6_user_isolation.1 1 (.stored [sampleEntry]) sampleEntry (by decide),
   C6_user_isolation.2 [sampleEntry] 0 (by decide) (by decide) 1 []⟩

/-- C7: the only range guard in /delete_history is `index >= len(history)`.
A non-negative out-of-range index does redirect and leave everything
unchanged (third conjunct), but a negative index is not rejected: index -1 on
a one-record log deletes that record and its file via Python's negative
indexing (first conjunct), and index -2 raises IndexError — a server error,
not a redirect (second conjunct). The spec's own sibling handler
`edit_quotation` guards `idx < 0` explicitly ("protect against negative
indexes", src/app.py lines 266-273), so the missing guard here is a slip. -/
theorem C7_negative_index_not_guarded :
    delete_history (-1) (.stored [sampleEntry]) [sampleEntry.file]
      = { response := .redirectHistory, history := .stored [], files := [] }
    ∧ delete_history (-2) (.stored [sampleEntry]) [sampleEntry.file]
      = { response := .serverError, history := .stored [sampleEntry],
          files := [sampleEntry.file] }
    ∧ delete_history 1 (.stored [sampleEntry]) [sampleEntry.file]
      = { response := .redirectHistory, history := .stored [sampleEntry],
          files := [sampleEntry.file] } :=
  ⟨by decide, by decide, by decide⟩

/-- A concrete generate_pdf form submission used to instantiate C8. -/
def sampleInput : GenInput :=
  { customer_name := "ACME Steels"
    customer_address := "1 Forge Rd"
    customer_city := "Pune"
    shipping_name := "ACME Steels"
    shipping_address := "1 Forge Rd"
    shipping_city := "Pune"
    company_name := "LSY"
    company_address := "Market Rd"
    company_email := "sales@lsy.example"
    company_phone := "12345"
    company_gst := "GSTIN01"
    bank_name := "SBI"
    account_name := "LSY"
    account_number := "0001"
    ifsc_code := "SBIN0000001"
    valid_till := "2026-10-20"
    product_name := ["Bolt"]
    description := none
    quantity := [2]
    unit_price := [50]
    loading_charge := none
    transportation_charge := none
    note := none
    quotation_number := "Q-1" }

/-- C8 counterexample: without any session, /generate_pdf does not redirect to
login and does change state (it prepends a history record), /delete_history
deletes the indexed record, and /download serves the file — none of the three
routes is session-gated. -/
theorem C8_counterexample :
    (generate_pdf_handler sampleInput none [] (.stored []) [] "06-10-2026"
        "06-10-2026_101010").response ≠ .redirectLogin
    ∧ (generate_pdf_handler sampleInput none [] (.stored []) [] "06-10-2026"
        "06-10-2026_101010").history ≠ .stored []
    ∧ (delete_history 0 (.stored [sampleEntry]) [sampleEntry.file]).response
        ≠ .redirectLogin
    ∧ (delete_history 0 (.stored [sampleEntry]) [sampleEntry.file]).history
        ≠ .stored [sampleEntry]
    ∧ (download_pdf sampleEntry.file (.stored [sampleEntry]) [sampleEntry.file]
        "06-10-2026 10:30").response ≠ .redirectLogin := by
  refine ⟨?_, ?_, by decide, by decide, by decide⟩
  · simp [generate_pdf_handler]
  · simp [generate_pdf_handler]

/-- C8 (amended): /generate_pdf, /delete_history and /download perform no
session check — a request without a valid session is not redirected to login;
/generate_pdf still generates the document and prepends a history record whose
user id is null, /delete_history still deletes, /download still serves. The
session-gated routes (such as /history) do redirect to login and change no
state. -/
theorem C8_no_session_gate_on_generate_delete_download :
    (∀ hf, view_history none hf = .redirectLogin)
    ∧ (∀ inp db hf files qd ts,
        (generate_pdf_handler inp none db hf files qd ts).response
          = .preview (baseName (pdfFileName inp.customer_name ts))
        ∧ (generate_pdf_handler inp none db hf files qd ts).history
          = .stored (genHistoryEntry inp none qd
              (baseName (pdfFileName inp.customer_name ts)) :: readForAppend hf)
        ∧ (genHistoryEntry inp none qd
            (baseName (pdfFileName inp.customer_name ts))).user_id = none)
    ∧ (∀ (i : Int) (hf : HistoryFile) (files : List String),
        (delete_history i hf files).response ≠ .redirectLogin)
    ∧ (∀ (nm : String) (hf : HistoryFile) (files : List String) (now : String),
        (download_pdf nm hf files now).response ≠ .redirectLogin) := by
  refine ⟨fun hf => rfl, fun inp db hf files qd ts => ⟨rfl, rfl, rfl⟩, ?_, ?_⟩
  · intro i hf files
    cases hf with
    | missing => simp [delete_history]
    | corrupt => by_cases h : (0 : Int) ≤ i <;> simp [delete_history, h]
    | stored l =>
      by_cases h : (l.length : Int) ≤ i
      · simp [delete_history, h]
      · cases hp : pyIdx l.length i <;> simp [delete_history, h, hp]
  · intro nm hf files now
    by_cases h : nm ∈ files
    · cases hf with
      | missing => simp [download_pdf, h]
      | corrupt => simp [download_pdf, h]
      | stored l =>
        by_cases h2 : l.any (fun e => e.file == nm) <;> simp [download_pdf, h, h2]
    · simp [download_pdf, h]

/-- Witness for the amended C8 at concrete requests. -/
theorem C8_witness :
    view_history none (.stored [sampleEntry]) = .redirectLogin
    ∧ (delete_history 0 (.stored []) []).response ≠ .redirectLogin
    ∧ (download_pdf "x.pdf" .missing [] "06-10-2026 10:30").response
        ≠ .redirectLogin :=
  ⟨C8_no_session_gate_on_generate_delete_download.1 (.stored [sampleEntry]),
   C8_no_session_gate_on_generate_delete_download.2.2.1 0 (.stored []) [],
   C8_no_session_gate_on_generate_delete_download.2.2.2 "x.pdf" .missing []
     "06-10-2026 10:30"⟩

theorem zip_append_of_le {α β : Type} (qs : List α) (ps extra : List β)
    (h : qs.length ≤ ps.length) : qs.zip (ps ++ extra) = qs.zip ps := by
  induction qs generalizing ps with
  | nil => simp
  | cons a qs ih =>
    cases ps with
    | nil => simp at h
    | cons b ps =>
      simp only [List.cons_append, List.zip_cons_cons]
      rw [ih ps (Nat.le_of_succ_le_succ h)]

theorem zip4_length {α β γ δ : Type} (as : List α) (bs : List β) (cs : List γ)
    (ds : List δ) :
    (zip4 as bs cs ds).length
      = min as.length (min bs.length (min cs.length ds.length)) := by
  induction as generalizing bs cs ds with
  | nil => cases bs <;> cases cs <;> cases ds <;> simp [zip4]
  | cons a as ih =>
    cases bs with
    | nil => simp [zip4]
    | cons b bs =>
      cases cs with
      | nil => simp [zip4]
      | cons c cs =>
        cases ds with
        | nil => simp [zip4]
        | cons d ds =>
          simp only [zip4, List.length_cons, ih]
          omega

/-- C10: generate_pdf neither rejects nor pads unequal-length sequences:
`total_amount` ranges over `zip(quantity, unit_price)` (so over the first
min-length positions, excess elements of the longer list being ignored), the
product rows range over the zip of all four sequences, only a missing
description list is coerced — to empty strings of product_name's length — and
the handler still answers with the preview page. -/
theorem C10_mismatched_lengths_truncate :
    (∀ (qs ps : List ℚ) (l t : ℚ),
      (quotationCalc qs ps l t).total_amount
        = ∑ i ∈ Finset.range (min qs.length ps.length), qs.getD i 0 * ps.getD i 0)
    ∧ (∀ (qs ps extra : List ℚ) (l t : ℚ), qs.length ≤ ps.length →
        quotationCalc qs (ps ++ extra) l t = quotationCalc qs ps l t)
    ∧ (∀ (names descs : List String) (qs ps : List ℚ),
        (zip4 names descs qs ps).length
          = min names.length (min descs.length (min qs.length ps.length)))
    ∧ (∀ names : List String,
        effectiveDescription none names = List.replicate names.length "")
    ∧ (∀ (ds names : List String), effectiveDescription (some ds) names = ds)
    ∧ (∀ inp su db hf files qd ts,
        (generate_pdf_handler inp su db hf files qd ts).response
          = .preview (baseName (pdfFileName inp.customer_name ts))) := by
  refine ⟨fun qs ps l t => sum_lineAmounts qs ps, ?_,
    fun names descs qs ps => zip4_length names descs qs ps, ?_,
    fun ds names => rfl, fun inp su db hf files qd ts => rfl⟩
  · intro qs ps extra l t h
    simp [quotationCalc, lineAmounts, zip_append_of_le qs ps extra h]
  · intro names
    induction names with
    | nil => rfl
    | cons a names ih =>
      simp only [effectiveDescription] at ih
      simp [effectiveDescription, List.replicate_succ, ih]

/-- Witness for C10: a longer unit-price list gives the same calculation as
its truncation. -/
theorem C10_witness :
    quotationCalc [(2 : ℚ)] ([50] ++ [7, 9]) 0 0 = quotationCalc [(2 : ℚ)] [50] 0 0 :=
  C10_mismatched_lengths_truncate.2.1 [(2 : ℚ)] [50] [7, 9] 0 0 (by decide)

end Quotation
